import Mathlib

/-!
# Verification of the Heat CloudFormation v1 stacks endpoint

A shallow embedding of `heat/api/cfn/v1/stacks.py` (the `StackController`
translation layer) together with models of its repository collaborators
that are declared outside the excerpt (the identifier codec
`heat.common.identifier`, and the AWS helpers `heat.api.aws.utils` /
`heat.api.aws.exception`), which are modelled from the specification where
noted.  All container values are per-request immutable data; Python dicts
are embedded as ordered association lists with Python's assignment
semantics (update-in-place keeps position, fresh key appends).
-/

set_option autoImplicit false

namespace HeatCfn

/-! ## Python dict primitives over association lists -/

/-- Python `d[k]` lookup returning `none` for a missing key
(`KeyError` paths are threaded through `Option`). -/
def dget {α : Type} : List (String × α) → String → Option α
  | [], _ => none
  | (k', v) :: rest, k => if k' = k then some v else dget rest k

/-- Python `d[k] = v`: replace in place when the key exists (keeping its
position), append otherwise. -/
def dset {α : Type} : List (String × α) → String → α → List (String × α)
  | [], k, v => [(k, v)]
  | (k', v') :: rest, k, v =>
    if k' = k then (k, v) :: rest else (k', v') :: dset rest k v

/-- Python `k in d`. -/
def dhas {α : Type} (m : List (String × α)) (k : String) : Bool :=
  (dget m k).isSome

/-- Python `dict(pairs)`: left-to-right assignment of each pair into an
initially empty dict (duplicate keys: last value wins, first position kept). -/
def dictOf {α : Type} (l : List (String × α)) : List (String × α) :=
  l.foldl (fun m p => dset m p.1 p.2) []

/-! ## Character-list utilities used by the identifier codec -/

/-- Strip a literal character prefix, or fail. -/
def stripPrefixChars : List Char → List Char → Option (List Char)
  | [], rest => some rest
  | _ :: _, [] => none
  | p :: ps, c :: cs => if c = p then stripPrefixChars ps cs else none

/-- The characters before the first occurrence of `sep`. -/
def takeUntil (sep : Char) : List Char → List Char
  | [] => []
  | c :: cs => if c = sep then [] else c :: takeUntil sep cs

/-- The suffix starting at the first occurrence of `sep` (empty when absent). -/
def dropUntil (sep : Char) : List Char → List Char
  | [] => []
  | c :: cs => if c = sep then c :: cs else dropUntil sep cs

/-! ## Identifier codec (`heat.common.identifier`)

The module `heat/common/identifier.py` is repository code that is not part
of the excerpt; its codec is modelled from the spec. -/

/-- Modelled from the spec: the Resource Identifier structured value —
fields `tenant`, `stack_name`, `stack_id` and an optional `path`
(empty string when absent), never mutated after construction. -/
structure HeatIdentifier where
  tenant : String
  stack_name : String
  stack_id : String
  path : String
  deriving Repr, DecidableEq

/-- The fixed ARN scheme header of an encoded identifier token. -/
def arnHeadChars : List Char := "arn:openstack:heat::".data

/-- The literal `stacks/` segment that follows the tenant in a token. -/
def stacksSegChars : List Char := "stacks/".data

/-- Modelled from the spec: `encode(identifier) → token`
(`HeatIdentifier.arn`), a deterministic total function building the single
opaque string form `arn:openstack:heat::<tenant>:stacks/<name>/<id><path>`. -/
def HeatIdentifier.arn (x : HeatIdentifier) : String :=
  String.mk (arnHeadChars ++ (x.tenant.data ++ ':' ::
    (stacksSegChars ++ (x.stack_name.data ++ '/' :: (x.stack_id.data ++ x.path.data)))))

/-- Modelled from the spec: `decode(token) → identifier`
(`HeatIdentifier.from_arn`), failing (`none`, the `MalformedIdentifier`
condition raised as `ValueError`) when the token does not match the scheme. -/
def HeatIdentifier.from_arn (s : String) : Option HeatIdentifier :=
  match stripPrefixChars arnHeadChars s.data with
  | none => none
  | some rest =>
    let tenant := takeUntil ':' rest
    match dropUntil ':' rest with
    | ':' :: rest2 =>
      match stripPrefixChars stacksSegChars rest2 with
      | none => none
      | some rest3 =>
        let name := takeUntil '/' rest3
        match dropUntil '/' rest3 with
        | '/' :: rest4 =>
          some ⟨String.mk tenant, String.mk name,
                String.mk (takeUntil '/' rest4), String.mk (dropUntil '/' rest4)⟩
        | _ => none
    | _ => none

/-- A valid identifier: no `:` in the tenant, no `/` in the stack name or
stack id, and a path that is either empty or `/`-rooted (the normal form the
constructor establishes). -/
def HeatIdentifier.valid (x : HeatIdentifier) : Prop :=
  (∀ c ∈ x.tenant.data, c ≠ ':') ∧ (∀ c ∈ x.stack_name.data, c ≠ '/') ∧
  (∀ c ∈ x.stack_id.data, c ≠ '/') ∧
  (x.path.data = [] ∨ ∃ r, x.path.data = '/' :: r)

instance (x : HeatIdentifier) : Decidable x.valid := by
  unfold HeatIdentifier.valid
  haveI hp : Decidable (x.path.data = [] ∨ ∃ r, x.path.data = '/' :: r) := by
    rcases h : x.path.data with _ | ⟨c, r⟩
    · exact .isTrue (Or.inl rfl)
    · by_cases hc : c = '/'
      · exact .isTrue (Or.inr ⟨r, by rw [hc]⟩)
      · refine .isFalse ?_
        rintro (h' | ⟨r', h'⟩) <;> simp_all
  exact inferInstance

/-- Modelled from the spec: constructing a `HeatIdentifier` from a dict of
keyword fields (`HeatIdentifier(**d)`): the three mandatory fields must be
present, `path` is optional (defaulting to the empty string), and an unknown
keyword is a `TypeError`; both failure modes surface as `none`. -/
def heatIdentifierOfDict (d : List (String × String)) : Option HeatIdentifier :=
  if d.all (fun p => p.1 == "tenant" || p.1 == "stack_name" ||
                     p.1 == "stack_id" || p.1 == "path") then
    match dget d "tenant", dget d "stack_name", dget d "stack_id" with
    | some t, some n, some i => some ⟨t, n, i, (dget d "path").getD ""⟩
    | _, _, _ => none
  else none

/-- Modelled from the spec: an event identifier is a stack identifier whose
`path` names the event; the encoded form exposed to callers (`event_id`) is
only its own short form, the final `/`-separated segment of the path. -/
def HeatIdentifier.event_id (x : HeatIdentifier) : String :=
  (x.path.splitOn "/").getLastD ""

/-! ## Engine result records and AWS-shaped documents -/

/-- A value inside an engine record or response document: a string scalar,
a nested mapping, or a sequence. -/
inductive Val where
  | str (s : String)
  | map (m : List (String × Val))
  | list (l : List Val)
  deriving Repr

/-- A record or response document: a Python dict embedded as an ordered
association list with distinct keys. -/
abbrev Doc := List (String × Val)

/-- The string content of a scalar value (`'_'.join` and `**` raise
`TypeError` on anything else). -/
def asStr : Val → Option String
  | .str s => some s
  | _ => none

/-- A mapping value all of whose entries are string scalars, as a plain
string dict (the shape `HeatIdentifier(**v)` accepts). -/
def strFields : List (String × Val) → Option (List (String × String))
  | [] => some []
  | (k, .str s) :: rest => (strFields rest).map (fun l => (k, s) :: l)
  | _ => none

def strFieldsOfVal : Val → Option (List (String × String))
  | .map m => strFields m
  | _ => none

/-! Engine-native record keys (`heat.rpc.api`, repository code outside the
excerpt; the exact spellings are opaque to this layer). -/

namespace engine_api

def STACK_ID : String := "stack_identity"
def STACK_NAME : String := "stack_name"
def STACK_ACTION : String := "stack_action"
def STACK_STATUS : String := "stack_status"
def STACK_STATUS_DATA : String := "stack_status_reason"
def STACK_CREATION_TIME : String := "creation_time"
def STACK_UPDATED_TIME : String := "updated_time"
def STACK_DELETION_TIME : String := "deletion_time"
def STACK_TMPL_DESCRIPTION : String := "template_description"
def STACK_DESCRIPTION : String := "description"
def STACK_CAPABILITIES : String := "capabilities"
def STACK_DISABLE_ROLLBACK : String := "disable_rollback"
def STACK_NOTIFICATION_TOPICS : String := "notification_topics"
def STACK_PARAMETERS : String := "parameters"
def STACK_OUTPUTS : String := "outputs"
def STACK_TIMEOUT : String := "timeout_mins"
def OUTPUT_DESCRIPTION : String := "description"
def OUTPUT_KEY : String := "output_key"
def OUTPUT_VALUE : String := "output_value"
def EVENT_ID : String := "event_identity"
def EVENT_STACK_ID : String := "stack_identity"
def EVENT_STACK_NAME : String := "stack_name"
def EVENT_TIMESTAMP : String := "event_time"
def EVENT_RES_NAME : String := "logical_resource_id"
def EVENT_RES_PHYSICAL_ID : String := "physical_resource_id"
def EVENT_RES_ACTION : String := "resource_action"
def EVENT_RES_STATUS : String := "resource_status"
def EVENT_RES_STATUS_DATA : String := "resource_status_reason"
def EVENT_RES_TYPE : String := "resource_type"
def EVENT_RES_PROPERTIES : String := "resource_properties"
def RES_DESCRIPTION : String := "description"
def RES_UPDATED_TIME : String := "updated_time"
def RES_NAME : String := "logical_resource_id"
def RES_PHYSICAL_ID : String := "physical_resource_id"
def RES_METADATA : String := "metadata"
def RES_ACTION : String := "resource_action"
def RES_STATUS : String := "resource_status"
def RES_STATUS_DATA : String := "resource_status_reason"
def RES_TYPE : String := "resource_type"
def RES_STACK_ID : String := "stack_identity"
def RES_STACK_NAME : String := "stack_name"
def PARAM_TIMEOUT : String := "timeout_mins"
def PARAM_DISABLE_ROLLBACK : String := "disable_rollback"
def PARAM_DEFAULT : String := "Default"
def PARAM_DESCRIPTION : String := "Description"
def PARAM_NO_ECHO : String := "NoEcho"

end engine_api

/-- Modelled from the spec: `reformat_dict_keys` (`heat.api.aws.utils`) —
for every `(engine_key, api_key)` pair of the keymap whose engine key is
present in the record, copy the value under the AWS key; record keys absent
from the keymap are dropped (a strict allow-list, not a pass-through). -/
def reformat_dict_keys (keymap : List (String × String)) (r : Doc) : Doc :=
  keymap.filterMap (fun p => (dget r p.1).map (fun v => (p.2, v)))

/-! ### `StackController._id_format` -/

/-- The `StackId` half of `_id_format`: when the response carries a
`StackId` holding raw identifier fields, replace it in place with the
encoded ARN token; a `StackId` that cannot build a `HeatIdentifier` is an
uncaught exception (`none`). -/
def id_format_stack (resp : Doc) : Option Doc :=
  match dget resp "StackId" with
  | none => some resp
  | some v =>
    match strFieldsOfVal v with
    | none => none
    | some fields =>
      match heatIdentifierOfDict fields with
      | none => none
      | some x => some (dset resp "StackId" (.str x.arn))

/-- The `EventId` half of `_id_format`: an `EventId` holding raw identifier
fields is replaced in place with the event's short id. -/
def id_format_event (resp : Doc) : Option Doc :=
  match dget resp "EventId" with
  | none => some resp
  | some v =>
    match strFieldsOfVal v with
    | none => none
    | some fields =>
      match heatIdentifierOfDict fields with
      | none => none
      | some x => some (dset resp "EventId" (.str x.event_id))

/-- `StackController._id_format`: rewrite the `StackId` field (when present)
to its ARN form and the `EventId` field (when present) to the event's short
id, leaving the rest of the response untouched. -/
def id_format (resp : Doc) : Option Doc :=
  match id_format_stack resp with
  | none => none
  | some r1 => id_format_event r1

/-! ### Key sanitization for stack outputs (`transform`/`replacecolon`) -/

/-- `k.replace(':', '.')` on a single key. -/
def replaceColonStr (s : String) : String :=
  String.mk (s.data.map (fun c => if c = ':' then '.' else c))

mutual

/-- The `transform` helper of `format_stack_outputs`: recursively replace
every `:` with `.` in dict keys, recursing into mapping values only (other
values, sequences included, are left as they are).  The source first
rebuilds the dict with replaced keys (`replacecolon`, via `dict(...)`) and
then transforms the mapping values of the result in place; transforming the
values pairwise before the `dict(...)` dedup gives the same dict, since the
dedup selects pairs by key alone. -/
def transformVal : Val → Val
  | .str s => .str s
  | .list l => .list l
  | .map m => .map (dictOf (transformPairs m))

def transformPairs : List (String × Val) → List (String × Val)
  | [] => []
  | (k, v) :: rest => (replaceColonStr k, transformVal v) :: transformPairs rest

end

/-- The `transform` entry point as applied to a stack-output mapping. -/
def transform (m : Doc) : Doc :=
  dictOf (transformPairs m)

def keymapStackOutputs : List (String × String) :=
  [(engine_api.OUTPUT_DESCRIPTION, "Description"),
   (engine_api.OUTPUT_KEY, "OutputKey"),
   (engine_api.OUTPUT_VALUE, "OutputValue")]

/-- `format_stack_outputs` inside `StackController.describe`. -/
def format_stack_outputs (o : Doc) : Doc :=
  reformat_dict_keys keymapStackOutputs (transform o)

/-- A key free of the `:` character. -/
def noColonKey (s : String) : Bool :=
  s.data.all (fun c => c != ':')

mutual

/-- Every mapping reachable through mapping values (sequences are not
walked) has colon-free keys. -/
def noColonDeepVal : Val → Bool
  | .str _ => true
  | .list _ => true
  | .map m => noColonDeepPairs m

def noColonDeepPairs : List (String × Val) → Bool
  | [] => true
  | (k, v) :: rest => noColonKey k && noColonDeepVal v && noColonDeepPairs rest

end

/-! ### Derived composite status: the three call sites -/

def keymapStackSummary : List (String × String) :=
  [(engine_api.STACK_CREATION_TIME, "CreationTime"),
   (engine_api.STACK_UPDATED_TIME, "LastUpdatedTime"),
   (engine_api.STACK_ID, "StackId"),
   (engine_api.STACK_NAME, "StackName"),
   (engine_api.STACK_STATUS_DATA, "StackStatusReason"),
   (engine_api.STACK_TMPL_DESCRIPTION, "TemplateDescription")]

/-- `format_stack_summary` inside `StackController.list`: reformat the
engine stack record, join `action` and `status` into `StackStatus`, copy an
optional `DeletionTime`, then `_id_format` the result.  A record without
scalar `action`/`status` fields is an uncaught `KeyError`/`TypeError`
(`none`); the reads are pure, so failures commute with the reformat. -/
def format_stack_summary (s : Doc) : Option Doc :=
  match dget s engine_api.STACK_ACTION, dget s engine_api.STACK_STATUS with
  | some (.str action), some (.str status) =>
    let result := reformat_dict_keys keymapStackSummary s
    let result := dset result "StackStatus" (.str (action ++ "_" ++ status))
    let result := match dget s engine_api.STACK_DELETION_TIME with
      | some v => dset result "DeletionTime" v
      | none => result
    id_format result
  | _, _ => none

def keymapStackEvent : List (String × String) :=
  [(engine_api.EVENT_ID, "EventId"),
   (engine_api.EVENT_RES_NAME, "LogicalResourceId"),
   (engine_api.EVENT_RES_PHYSICAL_ID, "PhysicalResourceId"),
   (engine_api.EVENT_RES_PROPERTIES, "ResourceProperties"),
   (engine_api.EVENT_RES_STATUS_DATA, "ResourceStatusReason"),
   (engine_api.EVENT_RES_TYPE, "ResourceType"),
   (engine_api.EVENT_STACK_ID, "StackId"),
   (engine_api.EVENT_STACK_NAME, "StackName"),
   (engine_api.EVENT_TIMESTAMP, "Timestamp")]

/-- `format_stack_event` inside `StackController.events_list`; `dumps` is
the external `json.dumps` serializer applied to `ResourceProperties`
(reading that key raises `KeyError` when the engine record lacked it). -/
def format_stack_event (dumps : Val → String) (e : Doc) : Option Doc :=
  match dget e engine_api.EVENT_RES_ACTION, dget e engine_api.EVENT_RES_STATUS with
  | some (.str action), some (.str status) =>
    let result := reformat_dict_keys keymapStackEvent e
    let result := dset result "ResourceStatus" (.str (action ++ "_" ++ status))
    match dget result "ResourceProperties" with
    | none => none
    | some props =>
      id_format (dset result "ResourceProperties" (.str (dumps props)))
  | _, _ => none

/-- `StackController._resource_status`: join the record's separate action
and status fields with an underscore. -/
def resource_status (res : Doc) : Option String :=
  match dget res engine_api.RES_ACTION, dget res engine_api.RES_STATUS with
  | some (.str action), some (.str status) => some (action ++ "_" ++ status)
  | _, _ => none

def keymapStackResource : List (String × String) :=
  [(engine_api.RES_DESCRIPTION, "Description"),
   (engine_api.RES_NAME, "LogicalResourceId"),
   (engine_api.RES_PHYSICAL_ID, "PhysicalResourceId"),
   (engine_api.RES_STATUS_DATA, "ResourceStatusReason"),
   (engine_api.RES_TYPE, "ResourceType"),
   (engine_api.RES_STACK_ID, "StackId"),
   (engine_api.RES_STACK_NAME, "StackName"),
   (engine_api.RES_UPDATED_TIME, "Timestamp")]

/-- `format_stack_resource` inside `StackController.describe_stack_resources`. -/
def format_stack_resource (r : Doc) : Option Doc :=
  match resource_status r with
  | none => none
  | some st =>
    id_format (dset (reformat_dict_keys keymapStackResource r) "ResourceStatus" (.str st))

/-! ## Action dispatcher (`StackController` request handlers) -/

/-- The closed fault vocabulary of `heat.api.aws.exception`. -/
inductive FaultKind where
  | accessDenied
  | invalidParameterValue
  | invalidParameterCombination
  | missingParameter
  | internalFailure
  | resourceNotFound
  deriving Repr, DecidableEq

/-- A failure raised by an engine RPC call, or a local exception caught by
the per-action `except Exception` handler (such as the `KeyError` of a
missing required request parameter). -/
inductive EngErr where
  | notFound
  | keyError
  | other (msg : String)
  deriving Repr, DecidableEq

/-- A failure surfaced by a handler: a locally chosen typed fault, a
remote/engine failure routed through `exception.map_remote_error`
(kind inference keyed on the engine's own error classification), or an
uncaught exception escaping the handler. -/
inductive ApiError where
  | fault (kind : FaultKind) (detail : String)
  | remote (e : EngErr)
  | uncaught
  deriving Repr, DecidableEq

/-- A failure of the external template-fetch collaborator (`urlfetch.get`).
In Python 2 `socket.gaierror` subclasses `IOError`, so both constructors
are handled by `_get_template`'s `except IOError` clause. -/
inductive FetchErr where
  | ioError (msg : String)
  | gaierror (msg : String)
  deriving Repr, DecidableEq

def fetchErrMsg : FetchErr → String
  | .ioError m => m
  | .gaierror m => m

/-- The keyword arguments handed to the engine's create/update operations. -/
structure EngArgs where
  template : Val
  params : List (String × String)
  files : List (String × String)
  args : List (String × String)
  deriving Repr

/-- One engine RPC invocation, recorded with its arguments. -/
inductive EngineCall where
  | identify_stack (name : String)
  | create_stack (stack_name : String) (a : EngArgs)
  | update_stack (ident : HeatIdentifier) (a : EngArgs)
  | get_template (ident : HeatIdentifier)
  | find_physical_resource (physical_resource_id : Option String)
  | describe_stack_resources (ident : HeatIdentifier) (resource_name : Option String)
  | validate_template (template : Val)
  deriving Repr

/-- The args an engine call passes to create/update, when it is one. -/
def EngineCall.engArgs : EngineCall → Option EngArgs
  | .create_stack _ a => some a
  | .update_stack _ a => some a
  | _ => none

/-- The external collaborators of one request: the policy decision, the
template fetch/parse services, and the engine RPC operations. -/
structure Collab where
  policy : String → Bool
  fetch : String → Except FetchErr String
  parse : String → Option Val
  identify_stack : String → Except EngErr HeatIdentifier
  create_stack : String → EngArgs → Except EngErr (List (String × String))
  update_stack : HeatIdentifier → EngArgs → Except EngErr (List (String × String))
  get_template : HeatIdentifier → Except EngErr (Option Val)
  find_physical_resource : Option String → Except EngErr HeatIdentifier
  describe_stack_resources : HeatIdentifier → Option String → Except EngErr (List Doc)
  validate_template : Val → Except EngErr Doc

/-- The flat request parameters (`req.params`). -/
abbrev Params := List (String × String)

/-- A successful serialized response: `api_utils.format_response(action,
response)`, modelled as the action name paired with the response payload. -/
structure Resp where
  action : String
  body : Val
  deriving Repr

/-- `StackController._enforce`: allow, or the access-denied fault. -/
def enforce (c : Collab) (action : String) : Except ApiError Unit :=
  if c.policy action then .ok ()
  else .error (.fault .accessDenied ("Action " ++ action ++ " not allowed for user"))

/-- `StackController._get_identity`: try to decode the input as an ARN
token; on `ValueError` fall back to one engine `identify_stack` call.
The second component records the engine calls issued. -/
def get_identity (c : Collab) (s : String) :
    Except EngErr HeatIdentifier × List EngineCall :=
  match HeatIdentifier.from_arn s with
  | some x => (.ok x, [])
  | none => (c.identify_stack s, [.identify_stack s])

/-- Python truthiness of an optional request parameter. -/
def truthy : Option String → Bool
  | none => false
  | some s => s != ""

/-- `StackController._get_template`: an inline `TemplateBody` wins, else a
`TemplateUrl` is fetched (an `IOError`, `socket.gaierror` included, becomes
the invalid-parameter fault), else `none` for "no template source". -/
def get_template (c : Collab) (ps : Params) : Except ApiError (Option String) :=
  match dget ps "TemplateBody" with
  | some body => .ok (some body)
  | none =>
    match dget ps "TemplateUrl" with
    | some url =>
      match c.fetch url with
      | .ok body => .ok (some body)
      | .error e =>
        .error (.fault .invalidParameterValue ("Failed to fetch template: " ++ fetchErrMsg e))
    | none => .ok none

/-- Modelled from the spec: `extract_param_pairs` (`heat.api.aws.utils`) —
recover the index of an AWS `<prefix>.member.<idx>.<field>` parameter name,
when the name has that shape for the given prefix and field. -/
def memberIndexOf (pre field : String) (name : String) : Option String :=
  match stripPrefixChars (pre ++ ".member.").data name.data with
  | none => none
  | some rest =>
    let idx := takeUntil '.' rest
    match dropUntil '.' rest with
    | '.' :: restf =>
      if restf = field.data && idx ≠ [] then some (String.mk idx) else none
    | _ => none

/-- Modelled from the spec: `extract_param_pairs` — group the flat
parameters by positional index under the prefix, read each group's
key-field and value-field entries, and emit one mapping entry per complete
group; groups missing either entry are skipped silently. -/
def extract_param_pairs (ps : Params) (pre keyname valuename : String) :
    List (String × String) :=
  ps.filterMap (fun q =>
    match memberIndexOf pre keyname q.1 with
    | none => none
    | some idx =>
      match dget ps (pre ++ ".member." ++ idx ++ "." ++ valuename) with
      | none => none
      | some value => some (q.2, value))

/-- `StackController._extract_user_params`. -/
def extract_user_params (ps : Params) : List (String × String) :=
  extract_param_pairs ps "Parameters" "ParameterKey" "ParameterValue"

/-- `extract_args` inside `create_or_update`: reject the
`DisableRollback`/`OnFailure` combination, copy the keymapped engine
arguments, then translate `OnFailure` into the engine's disable-rollback
parameter. -/
def extract_args (ps : Params) : Except ApiError (List (String × String)) :=
  if dhas ps "DisableRollback" && dhas ps "OnFailure" then
    .error (.fault .invalidParameterCombination
      "DisableRollback and OnFailure may not be used together")
  else
    let result : List (String × String) := []
    let result := match dget ps "TimeoutInMinutes" with
      | some v => dset result engine_api.PARAM_TIMEOUT v
      | none => result
    let result := match dget ps "DisableRollback" with
      | some v => dset result engine_api.PARAM_DISABLE_ROLLBACK v
      | none => result
    match dget ps "OnFailure" with
    | some v =>
      if v = "DO_NOTHING" then
        .ok (dset result engine_api.PARAM_DISABLE_ROLLBACK "true")
      else if v = "ROLLBACK" || v = "DELETE" then
        .ok (dset result engine_api.PARAM_DISABLE_ROLLBACK "false")
      else .ok result
    | none => .ok result

/-- The two actions sharing the create-or-update pipeline. -/
inductive CoUAction where
  | create_stack
  | update_stack
  deriving Repr, DecidableEq

def CoUAction.name : CoUAction → String
  | .create_stack => "CreateStack"
  | .update_stack => "UpdateStack"

/-- The tail of `create_or_update`: try to read the engine result as
identifier fields; on success respond with the encoded `StackId`, otherwise
pass the raw result through. -/
def couResponse (action : CoUAction) (result : List (String × String)) : Resp :=
  match heatIdentifierOfDict result with
  | some x => ⟨action.name, .map [("StackId", .str x.arn)]⟩
  | none => ⟨action.name, .map (result.map (fun p => (p.1, .str p.2)))⟩

/-- `StackController.create_or_update`: extract user parameters and engine
arguments, acquire and parse the template, then invoke the engine create or
update operation (resolving the target identity first for update).  Locally
raised and locally returned faults are both surfaced as `.error`; the
`KeyError` of a missing `StackName` is caught by the surrounding
`except Exception` and mapped as a remote error. -/
def create_or_update (c : Collab) (ps : Params) (action : CoUAction) :
    Except ApiError Resp × List EngineCall :=
  let stack_parms := extract_user_params ps
  match extract_args ps with
  | .error f => (.error f, [])
  | .ok create_args =>
    match get_template c ps with
    | .error f => (.error f, [])
    | .ok none =>
      (.error (.fault .missingParameter "TemplateBody or TemplateUrl were not given."), [])
    | .ok (some templ) =>
      match c.parse templ with
      | none =>
        (.error (.fault .invalidParameterValue "The Template must be a JSON or YAML document."), [])
      | some stack =>
        let args : EngArgs := ⟨stack, stack_parms, [], create_args⟩
        match dget ps "StackName" with
        | none => (.error (.remote .keyError), [])
        | some stack_name =>
          match action with
          | .create_stack =>
            match c.create_stack stack_name args with
            | .error e => (.error (.remote e), [.create_stack stack_name args])
            | .ok result => (.ok (couResponse action result), [.create_stack stack_name args])
          | .update_stack =>
            match get_identity c stack_name with
            | (.error e, log) => (.error (.remote e), log)
            | (.ok x, log) =>
              match c.update_stack x args with
              | .error e => (.error (.remote e), log ++ [.update_stack x args])
              | .ok result =>
                (.ok (couResponse action result), log ++ [.update_stack x args])

/-- `StackController.create`. -/
def create (c : Collab) (ps : Params) : Except ApiError Resp × List EngineCall :=
  match enforce c "CreateStack" with
  | .error f => (.error f, [])
  | .ok _ => create_or_update c ps .create_stack

/-- `StackController.update`. -/
def update (c : Collab) (ps : Params) : Except ApiError Resp × List EngineCall :=
  match enforce c "UpdateStack" with
  | .error f => (.error f, [])
  | .ok _ => create_or_update c ps .update_stack

/-- `format_validate_parameter` inside `validate_template` (reading an
attribute of a non-mapping parameter description raises, surfacing as
`none`). -/
def format_validate_parameter (k : String) (v : Val) : Option Doc :=
  match v with
  | .map m =>
    some [("ParameterKey", .str k),
          ("DefaultValue", (dget m engine_api.PARAM_DEFAULT).getD (.str "")),
          ("Description", (dget m engine_api.PARAM_DESCRIPTION).getD (.str "")),
          ("NoEcho", (dget m engine_api.PARAM_NO_ECHO).getD (.str "false"))]
  | _ => none

/-- `StackController.validate_template`: acquire and parse the template,
call the engine, pass an in-band `Error` result through, and otherwise
reshape the `Parameters` mapping; failures while reshaping happen inside
the `try` and are mapped as remote errors. -/
def validate_template_action (c : Collab) (ps : Params) :
    Except ApiError Resp × List EngineCall :=
  match enforce c "ValidateTemplate" with
  | .error f => (.error f, [])
  | .ok _ =>
    match get_template c ps with
    | .error f => (.error f, [])
    | .ok none =>
      (.error (.fault .missingParameter "TemplateBody or TemplateUrl were not given."), [])
    | .ok (some templ) =>
      match c.parse templ with
      | none =>
        (.error (.fault .invalidParameterValue "The Template must be a JSON or YAML document."), [])
      | some template =>
        match c.validate_template template with
        | .error e => (.error (.remote e), [.validate_template template])
        | .ok res =>
          match dget res "Error" with
          | some errv => (.ok ⟨"ValidateTemplate", errv⟩, [.validate_template template])
          | none =>
            match dget res "Parameters" with
            | some (.map pmap) =>
              match pmap.mapM (fun p => format_validate_parameter p.1 p.2) with
              | some plist =>
                (.ok ⟨"ValidateTemplate",
                      .map (dset res "Parameters" (.list (plist.map .map)))⟩,
                 [.validate_template template])
              | none => (.error (.remote (.other "AttributeError")), [.validate_template template])
            | some _ => (.error (.remote (.other "AttributeError")), [.validate_template template])
            | none => (.error (.remote .keyError), [.validate_template template])

/-- `StackController.get_template` (the GetTemplate API action): resolve
the stack, fetch the template from the engine, and translate an absent
(`None`) template into a local fault. -/
def get_template_action (c : Collab) (ps : Params) :
    Except ApiError Resp × List EngineCall :=
  match enforce c "GetTemplate" with
  | .error f => (.error f, [])
  | .ok _ =>
    match dget ps "StackName" with
    | none => (.error (.remote .keyError), [])
    | some sn =>
      match get_identity c sn with
      | (.error e, log) => (.error (.remote e), log)
      | (.ok ident, log) =>
        match c.get_template ident with
        | .error e => (.error (.remote e), log ++ [.get_template ident])
        | .ok none =>
          (.error (.fault .invalidParameterValue "stack not not found"),
           log ++ [.get_template ident])
        | .ok (some templ) =>
          (.ok ⟨"GetTemplate", .map [("TemplateBody", templ)]⟩,
           log ++ [.get_template ident])

/-- `StackController.describe_stack_resources`: reject a truthy
`StackName`/`PhysicalResourceId` combination; resolve the stack identity
from `StackName` when that parameter is present (even empty), and otherwise
from a `find_physical_resource` engine lookup on the (possibly absent)
physical id; then query and format the resources (formatting happens
outside the `try`, so its failure is an uncaught exception). -/
def describe_stack_resources_action (c : Collab) (ps : Params) :
    Except ApiError Resp × List EngineCall :=
  match enforce c "DescribeStackResources" with
  | .error f => (.error f, [])
  | .ok _ =>
    let stack_name := dget ps "StackName"
    let physical_resource_id := dget ps "PhysicalResourceId"
    if truthy stack_name && truthy physical_resource_id then
      (.error (.fault .invalidParameterCombination
        "Use `StackName` or `PhysicalResourceId` but not both"), [])
    else
      match (match stack_name with
             | some sn => get_identity c sn
             | none => (c.find_physical_resource physical_resource_id,
                        [.find_physical_resource physical_resource_id])) with
      | (.error e, log) => (.error (.remote e), log)
      | (.ok ident, log) =>
        let rn := dget ps "LogicalResourceId"
        match c.describe_stack_resources ident rn with
        | .error e => (.error (.remote e), log ++ [.describe_stack_resources ident rn])
        | .ok resources =>
          match resources.mapM format_stack_resource with
          | none => (.error .uncaught, log ++ [.describe_stack_resources ident rn])
          | some formatted =>
            (.ok ⟨"DescribeStackResources",
                  .map [("StackResources", .list (formatted.map .map))]⟩,
             log ++ [.describe_stack_resources ident rn])

/-! ## Concrete collaborator assemblies (used to evaluate the handlers) -/

/-- A benign collaborator assembly: policy allows everything and every
engine operation succeeds with fixed data. -/
def collabEx : Collab where
  policy := fun _ => true
  fetch := fun _ => .ok "fetched template body"
  parse := fun _ => some (.map [])
  identify_stack := fun _ => .ok ⟨"t", "n", "i", ""⟩
  create_stack := fun _ _ => .ok [("tenant", "t"), ("stack_name", "n"), ("stack_id", "i")]
  update_stack := fun _ _ => .ok [("tenant", "t"), ("stack_name", "n"), ("stack_id", "i")]
  get_template := fun _ => .ok (some (.str "template"))
  find_physical_resource := fun _ => .ok ⟨"t", "n", "i", ""⟩
  describe_stack_resources := fun _ _ => .ok []
  validate_template := fun _ => .ok [("Parameters", .map [])]

/-- A collaborator whose template fetch fails with a DNS resolution error. -/
def collabFetchErr : Collab :=
  { collabEx with fetch := fun _ => .error (.gaierror "name resolution failed") }

/-- A collaborator whose template parse rejects every document. -/
def collabParseFail : Collab :=
  { collabEx with parse := fun _ => none }

/-- A collaborator whose engine returns an absent (`None`) template. -/
def collabTemplateAbsent : Collab :=
  { collabEx with get_template := fun _ => .ok none }

/-- A collaborator whose physical-resource lookup fails with the engine's
not-found condition. -/
def collabPhysNotFound : Collab :=
  { collabEx with find_physical_resource := fun _ => .error .notFound }

/-! ## Lemma library -/

@[simp] theorem dget_nil {α : Type} (k : String) : dget ([] : List (String × α)) k = none := rfl

@[simp] theorem dget_cons {α : Type} (k' k : String) (v : α) (rest : List (String × α)) :
    dget ((k', v) :: rest) k = if k' = k then some v else dget rest k := rfl

theorem dget_dset_self {α : Type} (m : List (String × α)) (k : String) (v : α) :
    dget (dset m k v) k = some v := by
  induction m with
  | nil => simp [dset]
  | cons p rest ih =>
    obtain ⟨k', v'⟩ := p
    by_cases h : k' = k <;> simp [dset, h, ih]

theorem dget_dset_ne {α : Type} (m : List (String × α)) (k k₀ : String) (v : α)
    (h : k₀ ≠ k) : dget (dset m k v) k₀ = dget m k₀ := by
  induction m with
  | nil =>
    simp only [dset, dget_cons, dget_nil]
    rw [if_neg (fun hx => h hx.symm)]
  | cons p rest ih =>
    obtain ⟨k', v'⟩ := p
    by_cases hk : k' = k
    · subst hk
      have hne : ¬(k' = k₀) := fun hx => h hx.symm
      simp [dset, hne]
    · simp only [dset, if_neg hk, dget_cons]
      by_cases hk0 : k' = k₀ <;> simp [hk0, ih]

theorem keys_dset_of_mem {α : Type} (m : List (String × α)) (k : String) (v : α)
    (h : (dget m k).isSome) :
    (dset m k v).map Prod.fst = m.map Prod.fst := by
  induction m with
  | nil => simp [dget] at h
  | cons p rest ih =>
    obtain ⟨k', v'⟩ := p
    by_cases hk : k' = k
    · subst hk; simp [dset]
    · simp only [dget_cons, if_neg hk] at h
      simp [dset, hk, ih h]

theorem mem_dset {α : Type} (m : List (String × α)) (k : String) (v : α)
    (p : String × α) : p ∈ dset m k v → p ∈ m ∨ p = (k, v) := by
  induction m with
  | nil => intro h; simp [dset] at h; simp [h]
  | cons q rest ih =>
    intro h
    obtain ⟨k', v'⟩ := q
    by_cases hk : k' = k
    · subst hk
      simp only [dset, if_true, eq_self_iff_true, List.mem_cons] at h
      rcases h with h | h
      · right; exact h
      · left; exact List.mem_cons_of_mem _ h
    · simp only [dset, if_neg hk, List.mem_cons] at h
      rcases h with h | h
      · left; simp [h]
      · rcases ih h with h' | h'
        · left; exact List.mem_cons_of_mem _ h'
        · right; exact h'

theorem mem_foldl_dset {α : Type} (l : List (String × α)) :
    ∀ (acc : List (String × α)) (p : String × α),
      p ∈ l.foldl (fun m q => dset m q.1 q.2) acc → p ∈ acc ∨ p ∈ l := by
  induction l with
  | nil => intro acc p h'; left; simpa using h'
  | cons q rest ih =>
    intro acc p h'
    simp only [List.foldl_cons] at h'
    rcases ih (dset acc q.1 q.2) p h' with h'' | h''
    · rcases mem_dset _ _ _ _ h'' with h3 | h3
      · left; exact h3
      · right; simp [h3]
    · right; exact List.mem_cons_of_mem _ h''

theorem mem_dictOf {α : Type} (l : List (String × α)) (p : String × α)
    (h : p ∈ dictOf l) : p ∈ l := by
  rcases mem_foldl_dset l [] p h with h' | h'
  · simp at h'
  · exact h'

theorem dset_append_of_fresh {α : Type} (acc : List (String × α)) (k : String) (v : α)
    (h : (dget acc k).isSome = false) : dset acc k v = acc ++ [(k, v)] := by
  induction acc with
  | nil => simp [dset]
  | cons r racc ih =>
    obtain ⟨k', v'⟩ := r
    simp only [dget_cons] at h
    by_cases hk : k' = k
    · simp [hk] at h
    · simp only [dset, if_neg hk, List.cons_append]
      rw [ih (by simpa [hk] using h)]

theorem foldl_dset_of_nodup {α : Type} (l : List (String × α)) :
    ∀ (acc : List (String × α)), (l.map Prod.fst).Nodup →
      (∀ q ∈ l, (dget acc q.1).isSome = false) →
      l.foldl (fun m q => dset m q.1 q.2) acc = acc ++ l := by
  induction l with
  | nil => intro acc _ _; simp
  | cons q rest ih =>
    intro acc hnd hacc
    simp only [List.map_cons, List.nodup_cons] at hnd
    have hrest : ∀ p ∈ rest, (dget (dset acc q.1 q.2) p.1).isSome = false := by
      intro p hp
      have hne : p.1 ≠ q.1 := by
        intro hx
        exact hnd.1 (by simpa [hx] using List.mem_map_of_mem Prod.fst hp)
      rw [dget_dset_ne _ _ _ _ hne]
      exact hacc p (List.mem_cons_of_mem _ hp)
    simp only [List.foldl_cons]
    rw [ih _ hnd.2 hrest,
        dset_append_of_fresh _ _ _ (hacc q (List.mem_cons_self q rest)),
        List.append_assoc]
    rfl

/-- `dict(pairs)` is the identity when the keys are already distinct. -/
theorem dictOf_eq_self_of_nodup {α : Type} (l : List (String × α))
    (h : (l.map Prod.fst).Nodup) : dictOf l = l := by
  simpa using foldl_dset_of_nodup l [] h (by intro q _; rfl)

theorem stripPrefixChars_append (p rest : List Char) :
    stripPrefixChars p (p ++ rest) = some rest := by
  induction p with
  | nil => rfl
  | cons c cs ih => simp [stripPrefixChars, ih]

theorem takeUntil_append (sep : Char) (a b : List Char) (h : ∀ c ∈ a, c ≠ sep) :
    takeUntil sep (a ++ sep :: b) = a := by
  induction a with
  | nil => simp [takeUntil]
  | cons c cs ih =>
    have hc : c ≠ sep := h c (List.mem_cons_self c cs)
    simp only [List.cons_append, takeUntil, if_neg hc]
    exact congrArg (List.cons c) (ih (fun x hx => h x (List.mem_cons_of_mem _ hx)))

theorem dropUntil_append (sep : Char) (a b : List Char) (h : ∀ c ∈ a, c ≠ sep) :
    dropUntil sep (a ++ sep :: b) = sep :: b := by
  induction a with
  | nil => simp [dropUntil]
  | cons c cs ih =>
    have hc : c ≠ sep := h c (List.mem_cons_self c cs)
    simp only [List.cons_append, dropUntil, if_neg hc]
    exact ih (fun x hx => h x (List.mem_cons_of_mem _ hx))

theorem takeUntil_of_not_mem (sep : Char) (a : List Char) (h : ∀ c ∈ a, c ≠ sep) :
    takeUntil sep a = a := by
  induction a with
  | nil => rfl
  | cons c cs ih =>
    have hc : c ≠ sep := h c (List.mem_cons_self c cs)
    simp only [takeUntil, if_neg hc]
    exact congrArg (List.cons c) (ih (fun x hx => h x (List.mem_cons_of_mem _ hx)))

theorem dropUntil_of_not_mem (sep : Char) (a : List Char) (h : ∀ c ∈ a, c ≠ sep) :
    dropUntil sep a = [] := by
  induction a with
  | nil => rfl
  | cons c cs ih =>
    have hc : c ≠ sep := h c (List.mem_cons_self c cs)
    simp only [dropUntil, if_neg hc]
    exact ih (fun x hx => h x (List.mem_cons_of_mem _ hx))

/-- Claim C1. Identifier round trip: decoding the encoded string token of any
valid resource identifier (fields tenant, stack name, stack id, optional
path) yields the identifier back — `HeatIdentifier.from_arn (x.arn) = x`. -/
theorem from_arn_arn (x : HeatIdentifier) (h : x.valid) :
    HeatIdentifier.from_arn x.arn = some x := by
  obtain ⟨ht, hn, hi, hp⟩ := h
  unfold HeatIdentifier.from_arn HeatIdentifier.arn
  simp only [String.data]
  rw [stripPrefixChars_append]
  simp only
  rw [takeUntil_append _ _ _ ht, dropUntil_append _ _ _ ht]
  simp only
  rw [stripPrefixChars_append]
  simp only
  rw [takeUntil_append _ _ _ hn, dropUntil_append _ _ _ hn]
  simp only
  rcases hp with hp | ⟨r, hp⟩
  · rw [hp, List.append_nil, takeUntil_of_not_mem _ _ hi, dropUntil_of_not_mem _ _ hi]
    simp [← hp]
  · rw [hp, takeUntil_append _ _ _ hi, dropUntil_append _ _ _ hi]
    simp [← hp]

/-! ## Helper lemmas about `_id_format` -/

theorem id_format_stack_spec (d d' : Doc) (h : id_format_stack d = some d') :
    d'.map Prod.fst = d.map Prod.fst ∧
    (∀ k, k ≠ "StackId" → dget d' k = dget d k) ∧
    (∀ v, dget d "StackId" = some v →
      ∃ fields x, strFieldsOfVal v = some fields ∧ heatIdentifierOfDict fields = some x ∧
        dget d' "StackId" = some (.str x.arn)) := by
  unfold id_format_stack at h
  split at h
  next hs =>
    injection h with h
    subst h
    exact ⟨rfl, fun k _ => rfl, fun v hv => by rw [hs] at hv; cases hv⟩
  next v hs =>
    split at h
    next => cases h
    next fields hf =>
      split at h
      next => cases h
      next x hx =>
        injection h with h
        subst h
        refine ⟨keys_dset_of_mem _ _ _ (by rw [hs]; rfl),
                fun k hk => dget_dset_ne _ _ _ _ hk, fun v₀ hv₀ => ?_⟩
        rw [hs] at hv₀
        injection hv₀ with hv₀
        subst hv₀
        exact ⟨fields, x, hf, hx, dget_dset_self _ _ _⟩

theorem id_format_event_spec (d d' : Doc) (h : id_format_event d = some d') :
    d'.map Prod.fst = d.map Prod.fst ∧
    (∀ k, k ≠ "EventId" → dget d' k = dget d k) ∧
    (∀ v, dget d "EventId" = some v →
      ∃ fields x, strFieldsOfVal v = some fields ∧ heatIdentifierOfDict fields = some x ∧
        dget d' "EventId" = some (.str x.event_id)) := by
  unfold id_format_event at h
  split at h
  next hs =>
    injection h with h
    subst h
    exact ⟨rfl, fun k _ => rfl, fun v hv => by rw [hs] at hv; cases hv⟩
  next v hs =>
    split at h
    next => cases h
    next fields hf =>
      split at h
      next => cases h
      next x hx =>
        injection h with h
        subst h
        refine ⟨keys_dset_of_mem _ _ _ (by rw [hs]; rfl),
                fun k hk => dget_dset_ne _ _ _ _ hk, fun v₀ hv₀ => ?_⟩
        rw [hs] at hv₀
        injection hv₀ with hv₀
        subst hv₀
        exact ⟨fields, x, hf, hx, dget_dset_self _ _ _⟩

theorem id_format_split (d d' : Doc) (h : id_format d = some d') :
    ∃ d₁, id_format_stack d = some d₁ ∧ id_format_event d₁ = some d' := by
  unfold id_format at h
  split at h
  next => cases h
  next d₁ h₁ => exact ⟨d₁, h₁, h⟩

/-- The frame half of `_id_format`, shared by the status-derivation proofs:
keys are preserved and every field other than `StackId`/`EventId` keeps its
value. -/
theorem id_format_frame (d d' : Doc) (h : id_format d = some d') :
    d'.map Prod.fst = d.map Prod.fst ∧
    ∀ k, k ≠ "StackId" → k ≠ "EventId" → dget d' k = dget d k := by
  obtain ⟨d₁, h₁, h₂⟩ := id_format_split d d' h
  obtain ⟨hk₁, hf₁, _⟩ := id_format_stack_spec d d₁ h₁
  obtain ⟨hk₂, hf₂, _⟩ := id_format_event_spec d₁ d' h₂
  exact ⟨hk₂.trans hk₁, fun k hks hke => (hf₂ k hke).trans (hf₁ k hks)⟩

/-- Claim C10. For every response document `d` on which `_id_format` succeeds
with result `d'`, it changes at most the `StackId` and `EventId` fields —
rewriting each, when present, to its encoded token form (the ARN for a
stack identity, the short event id for an event identity) — while every
other key of `d` is present in `d'` with its original value and no key is
added or removed. -/
theorem id_format_changes_at_most_ids (d d' : Doc) (h : id_format d = some d') :
    d'.map Prod.fst = d.map Prod.fst ∧
    (∀ k, k ≠ "StackId" → k ≠ "EventId" → dget d' k = dget d k) ∧
    (∀ v, dget d "StackId" = some v →
      ∃ fields x, strFieldsOfVal v = some fields ∧ heatIdentifierOfDict fields = some x ∧
        dget d' "StackId" = some (.str x.arn)) ∧
    (∀ v, dget d "EventId" = some v →
      ∃ fields x, strFieldsOfVal v = some fields ∧ heatIdentifierOfDict fields = some x ∧
        dget d' "EventId" = some (.str x.event_id)) := by
  obtain ⟨d₁, h₁, h₂⟩ := id_format_split d d' h
  obtain ⟨hk₁, hf₁, hr₁⟩ := id_format_stack_spec d d₁ h₁
  obtain ⟨hk₂, hf₂, hr₂⟩ := id_format_event_spec d₁ d' h₂
  refine ⟨hk₂.trans hk₁, fun k hks hke => (hf₂ k hke).trans (hf₁ k hks), ?_, ?_⟩
  · intro v hv
    obtain ⟨fields, x, hf, hx, hval⟩ := hr₁ v hv
    exact ⟨fields, x, hf, hx, (hf₂ "StackId" (by decide)).trans hval⟩
  · intro v hv
    exact hr₂ v ((hf₁ "EventId" (by decide)).trans hv)

/-- Witness for C10 at a concrete response document carrying a raw
`StackId` and an unrelated field. -/
theorem id_format_changes_at_most_ids_witness :
    id_format [("StackId", .map [("tenant", .str "t"), ("stack_name", .str "s"),
                                 ("stack_id", .str "i")]), ("Color", .str "blue")] =
      some [("StackId", .str "arn:openstack:heat::t:stacks/s/i"), ("Color", .str "blue")] ∧
    dget [("StackId", Val.str "arn:openstack:heat::t:stacks/s/i"), ("Color", Val.str "blue")]
      "Color" = some (.str "blue") :=
  ⟨rfl, ((id_format_changes_at_most_ids
      [("StackId", .map [("tenant", .str "t"), ("stack_name", .str "s"),
                         ("stack_id", .str "i")]), ("Color", .str "blue")]
      [("StackId", .str "arn:openstack:heat::t:stacks/s/i"), ("Color", .str "blue")]
      rfl).2.1 "Color" (by decide) (by decide)).trans rfl⟩

/-- Claim C2. At all three call sites (stack summaries, events, resources)
the derived composite status equals `action + "_" + status` read from the
record's separate action and status fields. -/
theorem derive_status_three_call_sites :
    (∀ (s r : Doc) (a st : String),
       dget s engine_api.STACK_ACTION = some (.str a) →
       dget s engine_api.STACK_STATUS = some (.str st) →
       format_stack_summary s = some r →
       dget r "StackStatus" = some (.str (a ++ "_" ++ st))) ∧
    (∀ (dumps : Val → String) (e r : Doc) (a st : String),
       dget e engine_api.EVENT_RES_ACTION = some (.str a) →
       dget e engine_api.EVENT_RES_STATUS = some (.str st) →
       format_stack_event dumps e = some r →
       dget r "ResourceStatus" = some (.str (a ++ "_" ++ st))) ∧
    (∀ (res : Doc) (a st : String),
       dget res engine_api.RES_ACTION = some (.str a) →
       dget res engine_api.RES_STATUS = some (.str st) →
       resource_status res = some (a ++ "_" ++ st)) := by
  refine ⟨?_, ?_, ?_⟩
  · intro s r a st ha hst h
    unfold format_stack_summary at h
    split at h
    next a' st' heqa heqst =>
      rw [ha] at heqa
      rw [hst] at heqst
      injection heqa with heqa
      injection heqa with heqa
      injection heqst with heqst
      injection heqst with heqst
      subst heqa
      subst heqst
      rw [(id_format_frame _ _ h).2 "StackStatus" (by decide) (by decide)]
      cases hd : dget s engine_api.STACK_DELETION_TIME with
      | none => exact dget_dset_self _ _ _
      | some v => exact (dget_dset_ne _ _ _ _ (by decide)).trans (dget_dset_self _ _ _)
    next hne => exact Option.noConfusion h
  · intro dumps e r a st ha hst h
    unfold format_stack_event at h
    split at h
    next a' st' heqa heqst =>
      rw [ha] at heqa
      rw [hst] at heqst
      injection heqa with heqa
      injection heqa with heqa
      injection heqst with heqst
      injection heqst with heqst
      subst heqa
      subst heqst
      dsimp only at h
      split at h
      next => exact Option.noConfusion h
      next props hprops =>
        rw [(id_format_frame _ _ h).2 "ResourceStatus" (by decide) (by decide)]
        rw [dget_dset_ne _ _ _ _ (by decide)]
        exact dget_dset_self _ _ _
    next hne => exact Option.noConfusion h
  · intro res a st ha hst
    unfold resource_status
    rw [ha, hst]

/-- Witness for C2: a record with `action="CREATE"` and `status="COMPLETE"`
yields the composite status `"CREATE_COMPLETE"` at each call site. -/
theorem derive_status_three_call_sites_witness :
    dget [("StackStatus", Val.str "CREATE_COMPLETE")] "StackStatus" =
      some (.str ("CREATE" ++ "_" ++ "COMPLETE")) ∧
    dget [("ResourceProperties", Val.str "serialized"),
          ("ResourceStatus", Val.str "CREATE_COMPLETE")] "ResourceStatus" =
      some (.str ("CREATE" ++ "_" ++ "COMPLETE")) ∧
    resource_status [(engine_api.RES_ACTION, Val.str "CREATE"),
                     (engine_api.RES_STATUS, Val.str "COMPLETE")] =
      some ("CREATE" ++ "_" ++ "COMPLETE") :=
  ⟨derive_status_three_call_sites.1
      [(engine_api.STACK_ACTION, Val.str "CREATE"), (engine_api.STACK_STATUS, Val.str "COMPLETE")]
      _ "CREATE" "COMPLETE" rfl rfl rfl,
   derive_status_three_call_sites.2.1 (fun _ => "serialized")
      [(engine_api.EVENT_RES_ACTION, Val.str "CREATE"),
       (engine_api.EVENT_RES_STATUS, Val.str "COMPLETE"),
       (engine_api.EVENT_RES_PROPERTIES, Val.map [])]
      _ "CREATE" "COMPLETE" rfl rfl rfl,
   derive_status_three_call_sites.2.2
      [(engine_api.RES_ACTION, Val.str "CREATE"), (engine_api.RES_STATUS, Val.str "COMPLETE")]
      "CREATE" "COMPLETE" rfl rfl⟩

/-! ## Key sanitization (C6) -/

theorem noColonKey_replace (s : String) : noColonKey (replaceColonStr s) = true := by
  show ((s.data.map (fun c => if c = ':' then '.' else c)).all (fun c => c != ':')) = true
  induction s.data with
  | nil => rfl
  | cons c cs ih =>
    simp only [List.map_cons, List.all_cons, Bool.and_eq_true]
    refine ⟨?_, ih⟩
    by_cases hc : c = ':'
    · simp [hc]
    · simp [hc]

theorem mem_transformPairs (m : Doc) :
    ∀ p, p ∈ transformPairs m →
      ∃ k v, (k, v) ∈ m ∧ p = (replaceColonStr k, transformVal v) := by
  induction m with
  | nil => intro p h; cases h
  | cons q rest ih =>
    intro p h
    obtain ⟨k, v⟩ := q
    rw [transformPairs] at h
    rcases List.mem_cons.mp h with h | h
    · exact ⟨k, v, List.mem_cons_self _ _, h⟩
    · obtain ⟨k', v', hm, hp⟩ := ih p h
      exact ⟨k', v', List.mem_cons_of_mem _ hm, hp⟩

theorem noColonDeepPairs_of_forall (l : Doc) :
    (∀ p ∈ l, noColonKey p.1 = true ∧ noColonDeepVal p.2 = true) →
    noColonDeepPairs l = true := by
  induction l with
  | nil => intro _; rfl
  | cons q rest ih =>
    intro h
    obtain ⟨k, v⟩ := q
    obtain ⟨h1, h2⟩ := h (k, v) (List.mem_cons_self _ _)
    rw [noColonDeepPairs, h1, h2, ih (fun p hp => h p (List.mem_cons_of_mem _ hp))]
    rfl

theorem transformPairs_eq_map (m : Doc) :
    transformPairs m = m.map (fun p => (replaceColonStr p.1, transformVal p.2)) := by
  induction m with
  | nil => rfl
  | cons q rest ih =>
    obtain ⟨k, v⟩ := q
    rw [transformPairs, ih]
    rfl

theorem noColonDeep_transformVal_aux :
    ∀ (n : Nat) (v : Val), sizeOf v ≤ n → noColonDeepVal (transformVal v) = true := by
  intro n
  induction n with
  | zero =>
    intro v hv
    exfalso
    cases v <;> simp_all
  | succ n ih =>
    intro v hv
    cases v with
    | str s => rfl
    | list l => rfl
    | map m =>
      show noColonDeepPairs (dictOf (transformPairs m)) = true
      apply noColonDeepPairs_of_forall
      intro p hp
      obtain ⟨k, v', hmem, hpe⟩ := mem_transformPairs m p (mem_dictOf _ _ hp)
      subst hpe
      refine ⟨noColonKey_replace k, ih v' ?_⟩
      have h1 : sizeOf (k, v') < sizeOf m := List.sizeOf_lt_of_mem hmem
      have h2 : sizeOf (Val.map m) ≤ n + 1 := hv
      simp only [Val.map.sizeOf_spec] at h2
      have h3 : sizeOf v' < sizeOf (k, v') := by
        simp [Prod.mk.sizeOf_spec]
      omega

/-- Claim C6 counterexample. A mapping stored inside a sequence is NOT
sanitized: the `transform` of a document holding `[{"x:y": "v"}]` under key
`"a"` returns the document unchanged, with the colon key intact, whereas
walking sequences element-wise would have produced the key `"x.y"`. -/
theorem transform_skips_mappings_inside_sequences :
    transform [("a", .list [.map [("x:y", .str "v")]])] =
      [("a", .list [.map [("x:y", .str "v")]])] ∧
    replaceColonStr "x:y" = "x.y" ∧ "x:y" ≠ "x.y" :=
  ⟨rfl, rfl, by decide⟩

/-- Claim C6 (amended). `transform` replaces every `:` by `.` in the keys of
nested mappings at every depth reachable through mapping values, and leaves
non-mapping values untouched — but sequences are among the untouched
non-mapping values: they are returned as they are, so mappings inside
sequences are NOT sanitized.  With no key collisions introduced by the
replacement, the transform is exactly the element-wise key replacement and
value recursion. -/
theorem transform_sanitize_spec :
    (∀ m : Doc, noColonDeepPairs (transform m) = true) ∧
    (∀ v : Val, (∀ m, v ≠ .map m) → transformVal v = v) ∧
    (∀ m : Doc, (m.map (fun p => replaceColonStr p.1)).Nodup →
        transform m = m.map (fun p => (replaceColonStr p.1, transformVal p.2))) := by
  refine ⟨?_, ?_, ?_⟩
  · intro m
    exact noColonDeep_transformVal_aux (sizeOf (Val.map m)) (.map m) (Nat.le_refl _)
  · intro v h
    cases v with
    | str s => rfl
    | list l => rfl
    | map m => exact absurd rfl (h m)
  · intro m hnd
    show dictOf (transformPairs m) = _
    rw [transformPairs_eq_map]
    refine dictOf_eq_self_of_nodup _ ?_
    simpa [List.map_map, Function.comp] using hnd

/-- Witness for C1 at a concrete identifier with a sub-resource path. -/
theorem from_arn_arn_witness :
    HeatIdentifier.valid ⟨"tenantA", "wordpress", "abc-123", "/resources/WebServer"⟩ ∧
    HeatIdentifier.from_arn
        (HeatIdentifier.arn ⟨"tenantA", "wordpress", "abc-123", "/resources/WebServer"⟩) =
      some ⟨"tenantA", "wordpress", "abc-123", "/resources/WebServer"⟩ :=
  ⟨by decide, from_arn_arn ⟨"tenantA", "wordpress", "abc-123", "/resources/WebServer"⟩ (by decide)⟩

/-- Claim C3. `_get_identity` attempts to decode its input as an identifier
token first: a well-formed token is returned decoded with no engine call;
on decode failure exactly one `identify_stack` engine call is made and its
result returned. -/
theorem get_identity_two_paths (c : Collab) (s : String) :
    (∀ x, HeatIdentifier.from_arn s = some x → get_identity c s = (.ok x, [])) ∧
    (HeatIdentifier.from_arn s = none →
      get_identity c s = (c.identify_stack s, [.identify_stack s])) := by
  constructor
  · intro x hx
    unfold get_identity
    rw [hx]
  · intro hx
    unfold get_identity
    rw [hx]

/-- Witness for C3: a well-formed token resolves with no engine call; a
bare name resolves through exactly one `identify_stack` call. -/
theorem get_identity_two_paths_witness :
    get_identity collabEx "arn:openstack:heat::t:stacks/n/i" = (.ok ⟨"t", "n", "i", ""⟩, []) ∧
    get_identity collabEx "wordpress" =
      (collabEx.identify_stack "wordpress", [.identify_stack "wordpress"]) :=
  ⟨(get_identity_two_paths collabEx "arn:openstack:heat::t:stacks/n/i").1 ⟨"t", "n", "i", ""⟩ rfl,
   (get_identity_two_paths collabEx "wordpress").2 rfl⟩

/-- Claim C4. A create or update request whose parameters contain both
`DisableRollback` and `OnFailure` fails with the
invalid-parameter-combination fault, and no engine operation is invoked
(both for the shared pipeline and for the enforced `create`/`update`
actions when the policy allows them). -/
theorem create_or_update_mutual_exclusion (c : Collab) (ps : Params)
    (h1 : dhas ps "DisableRollback" = true) (h2 : dhas ps "OnFailure" = true) :
    (∀ action, create_or_update c ps action =
      (.error (.fault .invalidParameterCombination
        "DisableRollback and OnFailure may not be used together"), [])) ∧
    (c.policy "CreateStack" = true → create c ps =
      (.error (.fault .invalidParameterCombination
        "DisableRollback and OnFailure may not be used together"), [])) ∧
    (c.policy "UpdateStack" = true → update c ps =
      (.error (.fault .invalidParameterCombination
        "DisableRollback and OnFailure may not be used together"), [])) := by
  have hea : extract_args ps = .error (.fault .invalidParameterCombination
      "DisableRollback and OnFailure may not be used together") := by
    unfold extract_args
    rw [h1, h2]
    rfl
  have hcu : ∀ action, create_or_update c ps action =
      (.error (.fault .invalidParameterCombination
        "DisableRollback and OnFailure may not be used together"), []) := by
    intro action
    unfold create_or_update
    rw [hea]
  refine ⟨hcu, ?_, ?_⟩
  · intro hp
    unfold create enforce
    rw [hp]
    exact hcu .create_stack
  · intro hp
    unfold update enforce
    rw [hp]
    exact hcu .update_stack

/-- Witness for C4 at a concrete request carrying both parameters. -/
theorem create_or_update_mutual_exclusion_witness :
    dhas [("DisableRollback", "true"), ("OnFailure", "DO_NOTHING")] "DisableRollback" = true ∧
    create collabEx [("DisableRollback", "true"), ("OnFailure", "DO_NOTHING")] =
      (.error (.fault .invalidParameterCombination
        "DisableRollback and OnFailure may not be used together"), []) :=
  ⟨rfl, (create_or_update_mutual_exclusion collabEx
      [("DisableRollback", "true"), ("OnFailure", "DO_NOTHING")] rfl rfl).2.1 rfl⟩

/-- Claim C5 counterexample. With neither `StackName` nor
`PhysicalResourceId` supplied, the resources query does not apply to all
stacks: the handler issues a `find_physical_resource` engine lookup with
the absent physical id, and here (with the engine reporting not-found) the
whole action fails instead of enumerating stacks. -/
theorem describe_stack_resources_neither_counterexample :
    describe_stack_resources_action collabPhysNotFound [] =
      (.error (.remote .notFound), [.find_physical_resource none]) := rfl

/-- Claim C5 (amended). For a resources query: supplying both `StackName` and
`PhysicalResourceId` (as non-empty values) fails with
`InvalidParameterCombination` before any engine call; supplying neither
makes the handler resolve via a `find_physical_resource` engine lookup on
the absent physical id (its first engine call), not an all-stacks query. -/
theorem describe_stack_resources_exclusion (c : Collab) (ps : Params)
    (hpol : c.policy "DescribeStackResources" = true) :
    (truthy (dget ps "StackName") = true → truthy (dget ps "PhysicalResourceId") = true →
      describe_stack_resources_action c ps =
        (.error (.fault .invalidParameterCombination
          "Use `StackName` or `PhysicalResourceId` but not both"), [])) ∧
    (dget ps "StackName" = none → dget ps "PhysicalResourceId" = none →
      (describe_stack_resources_action c ps).2.head? =
        some (.find_physical_resource none)) := by
  constructor
  · intro h1 h2
    simp [describe_stack_resources_action, enforce, hpol, h1, h2]
  · intro hsn hpid
    cases hfp : c.find_physical_resource none with
    | error e =>
      have key : describe_stack_resources_action c ps =
          (.error (.remote e), [.find_physical_resource none]) := by
        simp [describe_stack_resources_action, enforce, hpol, hsn, hpid, hfp, truthy]
      rw [key]
      rfl
    | ok ident =>
      cases hdesc : c.describe_stack_resources ident (dget ps "LogicalResourceId") with
      | error e =>
        have key : describe_stack_resources_action c ps =
            (.error (.remote e),
             [.find_physical_resource none,
              .describe_stack_resources ident (dget ps "LogicalResourceId")]) := by
          simp [describe_stack_resources_action, enforce, hpol, hsn, hpid, hfp, hdesc, truthy]
        rw [key]
        rfl
      | ok rs =>
        cases hm : rs.mapM format_stack_resource with
        | none =>
          have hm' : List.mapM.loop format_stack_resource rs [] = none := hm
          have key : describe_stack_resources_action c ps =
              (.error .uncaught,
               [.find_physical_resource none,
                .describe_stack_resources ident (dget ps "LogicalResourceId")]) := by
            simp [describe_stack_resources_action, enforce, hpol, hsn, hpid, hfp, hdesc, hm, hm',
                  truthy]
          rw [key]
          rfl
        | some fm =>
          have hm' : List.mapM.loop format_stack_resource rs [] = some fm := hm
          have key : describe_stack_resources_action c ps =
              (.ok ⟨"DescribeStackResources",
                    .map [("StackResources", .list (fm.map .map))]⟩,
               [.find_physical_resource none,
                .describe_stack_resources ident (dget ps "LogicalResourceId")]) := by
            simp [describe_stack_resources_action, enforce, hpol, hsn, hpid, hfp, hdesc, hm, hm',
                  truthy]
          rw [key]
          rfl

/-- Witness for C5 (amended): both parameters non-empty is rejected with no
engine call; with neither parameter the first engine call is the
physical-resource lookup on the absent id. -/
theorem describe_stack_resources_exclusion_witness :
    describe_stack_resources_action collabEx [("StackName", "s"), ("PhysicalResourceId", "p")] =
      (.error (.fault .invalidParameterCombination
        "Use `StackName` or `PhysicalResourceId` but not both"), []) ∧
    (describe_stack_resources_action collabEx []).2.head? =
      some (.find_physical_resource none) :=
  ⟨(describe_stack_resources_exclusion collabEx
      [("StackName", "s"), ("PhysicalResourceId", "p")] rfl).1 rfl rfl,
   (describe_stack_resources_exclusion collabEx [] rfl).2 rfl rfl⟩

/-- Claim C9 counterexample. An absent (`None`) engine `get_template` result
makes the GetTemplate action fail with the `InvalidParameterValue` fault
kind, not `ResourceNotFound`. -/
theorem get_template_absent_counterexample :
    get_template_action collabTemplateAbsent
        [("StackName", "arn:openstack:heat::t:stacks/n/i")] =
      (.error (.fault .invalidParameterValue "stack not not found"),
       [.get_template ⟨"t", "n", "i", ""⟩]) ∧
    FaultKind.invalidParameterValue ≠ FaultKind.resourceNotFound :=
  ⟨rfl, by decide⟩

/-- Claim C9 (amended). When the engine's `get_template` returns an absent
result, the GetTemplate action fails with the `InvalidParameterValue` fault
kind (detail `"stack not not found"`), not with `ResourceNotFound`. -/
theorem get_template_absent_fault (c : Collab) (ps : Params) (sn : String)
    (ident : HeatIdentifier) (log : List EngineCall)
    (hpol : c.policy "GetTemplate" = true)
    (hsn : dget ps "StackName" = some sn)
    (hid : get_identity c sn = (.ok ident, log))
    (ht : c.get_template ident = .ok none) :
    get_template_action c ps =
      (.error (.fault .invalidParameterValue "stack not not found"),
       log ++ [.get_template ident]) := by
  simp [get_template_action, enforce, hpol, hsn, hid, ht]

/-- Witness for C9 (amended) at the counterexample's concrete input. -/
theorem get_template_absent_fault_witness :
    get_identity collabTemplateAbsent "arn:openstack:heat::t:stacks/n/i" =
      (.ok ⟨"t", "n", "i", ""⟩, []) ∧
    get_template_action collabTemplateAbsent
        [("StackName", "arn:openstack:heat::t:stacks/n/i")] =
      (.error (.fault .invalidParameterValue "stack not not found"),
       [] ++ [.get_template ⟨"t", "n", "i", ""⟩]) :=
  ⟨rfl, get_template_absent_fault collabTemplateAbsent
      [("StackName", "arn:openstack:heat::t:stacks/n/i")]
      "arn:openstack:heat::t:stacks/n/i" ⟨"t", "n", "i", ""⟩ [] rfl rfl rfl rfl⟩

/-- Claim C7 counterexample. A create request with no template source does
NOT always fail with the missing-parameter fault: when the request also
carries the conflicting `DisableRollback`/`OnFailure` pair, argument
extraction fails first and the action fails with
`InvalidParameterCombination` instead. -/
theorem template_missing_preempted_counterexample :
    create_or_update collabEx [("DisableRollback", "x"), ("OnFailure", "y")] .create_stack =
      (.error (.fault .invalidParameterCombination
        "DisableRollback and OnFailure may not be used together"), []) ∧
    FaultKind.invalidParameterCombination ≠ FaultKind.missingParameter :=
  ⟨rfl, by decide⟩

/-- Claim C7 (amended). For create/update — provided argument extraction has
succeeded (the request does not carry the `DisableRollback`/`OnFailure`
conflict) — and for validate-template unconditionally: no inline
`TemplateBody` and no `TemplateUrl` means the missing-parameter fault
before any engine call; a failed `TemplateUrl` fetch (DNS failures
included) means the invalid-parameter-value fault, not a raw network
error; an unparseable template means the invalid-parameter-value fault. -/
theorem template_acquisition_faults (c : Collab) (ps : Params) :
    (∀ r, extract_args ps = .ok r →
      dget ps "TemplateBody" = none → dget ps "TemplateUrl" = none →
      ∀ action, create_or_update c ps action =
        (.error (.fault .missingParameter "TemplateBody or TemplateUrl were not given."), [])) ∧
    (∀ r url e, extract_args ps = .ok r →
      dget ps "TemplateBody" = none → dget ps "TemplateUrl" = some url →
      c.fetch url = .error e →
      ∀ action, create_or_update c ps action =
        (.error (.fault .invalidParameterValue
          ("Failed to fetch template: " ++ fetchErrMsg e)), [])) ∧
    (∀ r t, extract_args ps = .ok r →
      get_template c ps = .ok (some t) → c.parse t = none →
      ∀ action, create_or_update c ps action =
        (.error (.fault .invalidParameterValue
          "The Template must be a JSON or YAML document."), [])) ∧
    (c.policy "ValidateTemplate" = true →
      (dget ps "TemplateBody" = none → dget ps "TemplateUrl" = none →
        validate_template_action c ps =
          (.error (.fault .missingParameter "TemplateBody or TemplateUrl were not given."), [])) ∧
      (∀ url e, dget ps "TemplateBody" = none → dget ps "TemplateUrl" = some url →
        c.fetch url = .error e →
        validate_template_action c ps =
          (.error (.fault .invalidParameterValue
            ("Failed to fetch template: " ++ fetchErrMsg e)), [])) ∧
      (∀ t, get_template c ps = .ok (some t) → c.parse t = none →
        validate_template_action c ps =
          (.error (.fault .invalidParameterValue
            "The Template must be a JSON or YAML document."), []))) := by
  refine ⟨?_, ?_, ?_, ?_⟩
  · intro r hr hb hu action
    have hgt : get_template c ps = .ok none := by
      simp [get_template, hb, hu]
    simp [create_or_update, hr, hgt]
  · intro r url e hr hb hu hf action
    have hgt : get_template c ps =
        .error (.fault .invalidParameterValue
          ("Failed to fetch template: " ++ fetchErrMsg e)) := by
      simp [get_template, hb, hu, hf]
    simp [create_or_update, hr, hgt]
  · intro r t hr hgt hp action
    simp [create_or_update, hr, hgt, hp]
  · intro hpol
    refine ⟨?_, ?_, ?_⟩
    · intro hb hu
      have hgt : get_template c ps = .ok none := by
        simp [get_template, hb, hu]
      simp [validate_template_action, enforce, hpol, hgt]
    · intro url e hb hu hf
      have hgt : get_template c ps =
          .error (.fault .invalidParameterValue
            ("Failed to fetch template: " ++ fetchErrMsg e)) := by
        simp [get_template, hb, hu, hf]
      simp [validate_template_action, enforce, hpol, hgt]
    · intro t hgt hp
      simp [validate_template_action, enforce, hpol, hgt, hp]

/-- Witness for C7 (amended): a legal request with no template source is
rejected as missing-parameter with no engine call; a DNS-failing fetch and
an unparseable template are rejected as invalid-parameter-value. -/
theorem template_acquisition_faults_witness :
    create_or_update collabEx [] .create_stack =
      (.error (.fault .missingParameter "TemplateBody or TemplateUrl were not given."), []) ∧
    create_or_update collabFetchErr [("TemplateUrl", "http://h/t")] .create_stack =
      (.error (.fault .invalidParameterValue
        ("Failed to fetch template: " ++ fetchErrMsg (.gaierror "name resolution failed"))), []) ∧
    validate_template_action collabParseFail [("TemplateBody", "nope")] =
      (.error (.fault .invalidParameterValue
        "The Template must be a JSON or YAML document."), []) :=
  ⟨(template_acquisition_faults collabEx []).1 [] rfl rfl rfl .create_stack,
   (template_acquisition_faults collabFetchErr [("TemplateUrl", "http://h/t")]).2.1
      [] "http://h/t" (.gaierror "name resolution failed") rfl rfl rfl rfl .create_stack,
   ((template_acquisition_faults collabParseFail [("TemplateBody", "nope")]).2.2.2 rfl).2.2
      "nope" rfl rfl⟩

/-- The identity-resolution step never performs an engine create/update
call. -/
theorem get_identity_log (c : Collab) (s : String) (call : EngineCall)
    (h : call ∈ (get_identity c s).2) : call.engArgs = none := by
  unfold get_identity at h
  cases hfa : HeatIdentifier.from_arn s with
  | some x =>
    rw [hfa] at h
    simp at h
  | none =>
    rw [hfa] at h
    simp at h
    subst h
    rfl

/-- Claim C8. Argument extraction translates `OnFailure=DO_NOTHING` into the
engine disable-rollback parameter `"true"` and `OnFailure` of `ROLLBACK` or
`DELETE` into `"false"`; and the translation happens before the engine
call: the args of any engine create/update call recorded by
`create_or_update` are exactly the output of `extract_args`. -/
theorem extract_args_onfailure (ps : Params) :
    (∀ r, extract_args ps = .ok r →
      (dget ps "OnFailure" = some "DO_NOTHING" →
        dget r engine_api.PARAM_DISABLE_ROLLBACK = some "true") ∧
      (dget ps "OnFailure" = some "ROLLBACK" ∨ dget ps "OnFailure" = some "DELETE" →
        dget r engine_api.PARAM_DISABLE_ROLLBACK = some "false")) ∧
    (∀ (c : Collab) (action : CoUAction) res log call a,
      create_or_update c ps action = (res, log) → call ∈ log →
      call.engArgs = some a → extract_args ps = .ok a.args) := by
  constructor
  · intro r hr
    constructor
    · intro hof
      unfold extract_args at hr
      split at hr
      next => exact Except.noConfusion hr
      next =>
        rw [hof] at hr
        simp at hr
        subst hr
        exact dget_dset_self _ _ _
    · intro hof
      unfold extract_args at hr
      split at hr
      next => exact Except.noConfusion hr
      next =>
        rcases hof with hof | hof <;>
          · rw [hof] at hr
            simp at hr
            subst hr
            exact dget_dset_self _ _ _
  · intro c action res log call a h hcall hargs
    unfold create_or_update at h
    split at h
    next f heq =>
      injection h with h1 h2
      subst h2
      simp at hcall
    next r heq =>
      split at h
      next f heq2 =>
        injection h with h1 h2
        subst h2
        simp at hcall
      next heq2 =>
        injection h with h1 h2
        subst h2
        simp at hcall
      next templ heq2 =>
        split at h
        next heq3 =>
          injection h with h1 h2
          subst h2
          simp at hcall
        next stack heq3 =>
          split at h
          next heq4 =>
            injection h with h1 h2
            subst h2
            simp at hcall
          next stack_name heq4 =>
            split at h
            next =>
              -- create_stack branch
              dsimp only at h
              split at h
              next e heq5 =>
                injection h with h1 h2
                subst h2
                simp at hcall
                subst hcall
                unfold EngineCall.engArgs at hargs
                injection hargs with hargs
                subst hargs
                exact heq
              next result heq5 =>
                injection h with h1 h2
                subst h2
                simp at hcall
                subst hcall
                unfold EngineCall.engArgs at hargs
                injection hargs with hargs
                subst hargs
                exact heq
            next =>
              -- update_stack branch
              split at h
              next e log1 heq5 =>
                injection h with h1 h2
                subst h2
                have hnone : call.engArgs = none :=
                  get_identity_log c stack_name call (by rw [heq5]; exact hcall)
                rw [hnone] at hargs
                exact Option.noConfusion hargs
              next x log1 heq5 =>
                dsimp only at h
                split at h
                next e heq6 =>
                  injection h with h1 h2
                  subst h2
                  rcases List.mem_append.mp hcall with hc | hc
                  · have hnone : call.engArgs = none :=
                      get_identity_log c stack_name call (by rw [heq5]; exact hc)
                    rw [hnone] at hargs
                    exact Option.noConfusion hargs
                  · simp at hc
                    subst hc
                    unfold EngineCall.engArgs at hargs
                    injection hargs with hargs
                    subst hargs
                    exact heq
                next result heq6 =>
                  injection h with h1 h2
                  subst h2
                  rcases List.mem_append.mp hcall with hc | hc
                  · have hnone : call.engArgs = none :=
                      get_identity_log c stack_name call (by rw [heq5]; exact hc)
                    rw [hnone] at hargs
                    exact Option.noConfusion hargs
                  · simp at hc
                    subst hc
                    unfold EngineCall.engArgs at hargs
                    injection hargs with hargs
                    subst hargs
                    exact heq

/-- Witness for C8: `OnFailure=DO_NOTHING` alone yields disable-rollback
`"true"`, `ROLLBACK` yields `"false"`, and a concrete successful create
passes exactly the extracted args to the engine. -/
theorem extract_args_onfailure_witness :
    dget [("disable_rollback", "true")] engine_api.PARAM_DISABLE_ROLLBACK = some "true" ∧
    dget [("disable_rollback", "false")] engine_api.PARAM_DISABLE_ROLLBACK = some "false" ∧
    extract_args [("TemplateBody", "tb"), ("StackName", "s")] =
      .ok (EngArgs.args ⟨.map [], [], [], []⟩) :=
  ⟨((extract_args_onfailure [("OnFailure", "DO_NOTHING")]).1
      [("disable_rollback", "true")] rfl).1 rfl,
   ((extract_args_onfailure [("OnFailure", "ROLLBACK")]).1
      [("disable_rollback", "false")] rfl).2 (Or.inl rfl),
   (extract_args_onfailure [("TemplateBody", "tb"), ("StackName", "s")]).2 collabEx
      .create_stack
      (.ok ⟨"CreateStack", .map [("StackId", .str "arn:openstack:heat::t:stacks/n/i")]⟩)
      [.create_stack "s" ⟨.map [], [], [], []⟩]
      (.create_stack "s" ⟨.map [], [], [], []⟩) ⟨.map [], [], [], []⟩
      rfl (List.mem_singleton.mpr rfl) rfl⟩

/-- Witness for C6 (amended) at concrete documents. -/
theorem transform_sanitize_spec_witness :
    noColonDeepPairs (transform [("a:b", Val.str "v")]) = true ∧
    transformVal (.list [.str "x"]) = .list [.str "x"] ∧
    transform [("a:b", Val.str "v")] = [("a.b", Val.str "v")] :=
  ⟨transform_sanitize_spec.1 [("a:b", Val.str "v")],
   transform_sanitize_spec.2.1 (.list [.str "x"]) (fun m hm => Val.noConfusion hm),
   (transform_sanitize_spec.2.2 [("a:b", Val.str "v")] (by decide)).trans rfl⟩

end HeatCfn
